import Mathlib

/-!
Verification of the MariaDB storage backend (`internal/storage/mariadb`):
a shallow embedding of `store.go`, `migrations.go` and
`factory_mariadb.go`, followed by theorems about the embedded code.

Go strings are modelled as `List Char`; a Go `error` value is modelled as
`Option (List Char)` (`none` = nil, `some msg` = an error whose `Error()`
message is `msg`), except where identity with `context.Canceled` matters,
where the dedicated type `GoErr` is used.  External effects (the SQL
driver, the server, the environment) are modelled as oracles supplied as
structure fields, so every theorem quantifies over all possible behaviours
of the outside world.
-/

namespace Maude

/-- Model of Go `strings.HasPrefix sub` seen as a test on the front of a
list (used only to build `goContains` below). -/
def startsWith : List Char → List Char → Bool
  | _, [] => true
  | [], _ :: _ => false
  | c :: cs, d :: ds => c == d && startsWith cs ds

/-- Model of Go `strings.Contains s sub`: `sub` occurs contiguously in `s`. -/
def goContains : List Char → List Char → Bool
  | [], sub => sub.isEmpty
  | s@(_ :: rest), sub => startsWith s sub || goContains rest sub

/-- Model of Go `strings.ToLower` (character-wise lowering; the messages in
this development are ASCII, where `Char.toLower` agrees with Go). -/
def goToLower (s : List Char) : List Char :=
  s.map Char.toLower

/-- The Latin-1 white-space set of Go `unicode.IsSpace`, which is what
`strings.TrimSpace` strips (the scripts in this code base are ASCII). -/
def isSpaceChar (c : Char) : Bool :=
  c == ' ' || c == '\t' || c == '\n' || c == Char.ofNat 11 ||
  c == Char.ofNat 12 || c == '\r' || c == Char.ofNat 133 || c == Char.ofNat 160

/-- Model of Go `strings.TrimSpace`: drop white space from both ends. -/
def trimSpace (s : List Char) : List Char :=
  ((s.dropWhile isSpaceChar).reverse.dropWhile isSpaceChar).reverse

/-- Model of Go `strings.Split s "\n"`. -/
def splitNl : List Char → List (List Char)
  | [] => [[]]
  | c :: rest =>
    match splitNl rest with
    | [] => [[c]]
    | line :: more =>
      if c == '\n' then [] :: line :: more else (c :: line) :: more

/-- store.go `isRetryableError`: true exactly for transient connection
errors.  The Go code lowercases the message and tests four substrings; the
first pattern is the full driver string `driver: bad connection`. -/
def isRetryableError : Option (List Char) → Bool
  | none => false
  | some msg =>
    let errStr := goToLower msg
    if goContains errStr ("driver: bad connection".toList) then true
    else if goContains errStr ("invalid connection".toList) then true
    else if goContains errStr ("broken pipe".toList) then true
    else if goContains errStr ("connection reset".toList) then true
    else false

/-- The scanner state of store.go `splitStatements`: accumulated
statements, the current statement being built, and the string-literal
tracking flags. -/
structure SplitState where
  statements : List (List Char)
  current : List Char
  inString : Bool
  stringChar : Char
  deriving Repr, DecidableEq

/-- One iteration of the `splitStatements` scan loop on character `c`;
`prev` is `script[i-1]` (`none` when `i = 0`), used for the
backslash-escape test. -/
def splitStep (st : SplitState) (prev : Option Char) (c : Char) : SplitState :=
  if st.inString then
    let current := st.current ++ [c]
    if c == st.stringChar &&
        (match prev with | none => true | some p => p != '\x5c') then
      { st with current := current, inString := false }
    else
      { st with current := current }
  else if c == '\x27' || c == '\x22' || c == '\x60' then
    { st with current := st.current ++ [c], inString := true, stringChar := c }
  else if c == ';' then
    let stmt := trimSpace st.current
    { st with
      statements := if stmt.isEmpty then st.statements else st.statements ++ [stmt],
      current := [] }
  else
    { st with current := st.current ++ [c] }

/-- The `splitStatements` loop over the whole script. -/
def splitLoop : SplitState → Option Char → List Char → SplitState
  | st, _, [] => st
  | st, prev, c :: rest => splitLoop (splitStep st prev c) (some c) rest

/-- The initial scanner state (`stringChar` starts as `byte(0)`). -/
def splitInit : SplitState :=
  { statements := [], current := [], inString := false, stringChar := Char.ofNat 0 }

/-- store.go `splitStatements`: split a SQL script into statements,
ignoring semicolons inside quoted literals, trimming each statement and
emitting a trailing statement with no terminator. -/
def splitStatements (script : List Char) : List (List Char) :=
  let st := splitLoop splitInit none script
  let stmt := trimSpace st.current
  if stmt.isEmpty then st.statements else st.statements ++ [stmt]

/-- store.go `truncateForError`: statements longer than 100 bytes are cut
and suffixed with an ellipsis. -/
def truncateForError (s : List Char) : List Char :=
  if s.length > 100 then s.take 100 ++ ("...".toList) else s

/-- store.go `isOnlyComments`: every line is blank or starts with `--`
after trimming. -/
def isOnlyComments (stmt : List Char) : Bool :=
  (splitNl stmt).all fun line =>
    let line := trimSpace line
    line.isEmpty || startsWith line ("--".toList)

/-- The retry loop of `backoff.Retry` as wrapped by store.go `withRetry`.
The operation is modelled as a function from the invocation index to the
error it produces (`none` = success).  The exponential backoff with the
30-second `MaxElapsedTime` ceiling is abstracted by `fuel`, the number of
times `NextBackOff` still answers with a delay instead of `Stop`; real
time and context cancellation have no shallow embedding.  The second
component of the result counts how many times the operation was invoked. -/
def retryLoop (op : Nat → Option (List Char)) :
    Nat → Nat → Option (List Char) × Nat
  | fuel, k =>
    match op k with
    | none => (none, k + 1)
    | some e =>
      if isRetryableError (some e) then
        match fuel with
        | 0 => (some e, k + 1)
        | f + 1 => retryLoop op f (k + 1)
      else (some e, k + 1)

/-- store.go `withRetry`: run the operation under the retry loop, with
retryable errors retried and any other error made permanent. -/
def withRetry (op : Nat → Option (List Char)) (fuel : Nat) :
    Option (List Char) × Nat :=
  retryLoop op fuel 0

/-- A Go error as far as `Close` needs to distinguish it:
`context.Canceled` or any other error, carrying its message. -/
inductive GoErr where
  | canceled : GoErr
  | msg : List Char → GoErr
  deriving Repr, DecidableEq

/-- Oracle for one `*sql.DB` handle: how the pool answers an
`ExecContext` (an error message or success), a `QueryRow(...).Scan(&n)`
counting query (an error or the count), a `PingContext`, a `Conn`
request, and what `(*sql.DB).Close` returns. -/
structure DB where
  exec : List Char → Option (List Char)
  queryCount : List Char → Except (List Char) Nat
  ping : Option (List Char)
  connResult : Except GoErr Unit
  closeResult : Option GoErr

/-- store.go `MariaDBStore`: the pool pointer is `Option DB` (`none`
models a nil `*sql.DB`), with the database name, connection string,
closed flag and read-only flag. -/
structure MariaDBStore where
  db : Option DB
  dbName : List Char
  connStr : List Char
  closed : Bool
  readOnly : Bool

/-- store.go `Close`: set the closed flag, close the pool if non-nil —
discarding a `context.Canceled` result — clear the pool pointer and
return the remaining error.  Returns the updated store and the error. -/
def MariaDBStore.Close (s : MariaDBStore) : MariaDBStore × Option GoErr :=
  let s := { s with closed := true }
  match s.db with
  | none => ({ s with db := none }, none)
  | some d =>
    let err : Option GoErr :=
      match d.closeResult with
      | none => none
      | some cerr => if cerr = GoErr.canceled then none else some cerr
    ({ s with db := none }, err)

/-- store.go `IsClosed`. -/
def MariaDBStore.IsClosed (s : MariaDBStore) : Bool :=
  s.closed

/-- store.go `Path`. -/
def MariaDBStore.Path (s : MariaDBStore) : List Char :=
  s.dbName

/-- store.go `UnderlyingDB`: returns the pool pointer as stored — nil
(`none`) after `Close`. -/
def MariaDBStore.UnderlyingDB (s : MariaDBStore) : Option DB :=
  s.db

/-- The possible outcomes of a Go call in this model: a value, an error,
or a run-time panic (nil-pointer dereference). -/
inductive CallOutcome (α : Type) where
  | ok : α → CallOutcome α
  | error : GoErr → CallOutcome α
  | nilPanic : CallOutcome α
  deriving Repr

/-- store.go `UnderlyingConn`: `return s.db.Conn(ctx)`.  When `s.db` is
nil (as it is after `Close`), calling `Conn` on the nil `*sql.DB`
dereferences a nil pointer, which panics in Go; that outcome is
`nilPanic`.  Otherwise the pool's answer is returned. -/
def MariaDBStore.UnderlyingConn (s : MariaDBStore) : CallOutcome Unit :=
  match s.db with
  | none => CallOutcome.nilPanic
  | some d =>
    match d.connResult with
    | Except.ok u => CallOutcome.ok u
    | Except.error e => CallOutcome.error e

/-- The catalog query of migrations.go `migrateWispTypeColumn` (the Go
raw string, with its indentation and trailing blanks). -/
def wispTypeQuery : List Char :=
  ("\n\t\tSELECT COUNT(*) \n\t\tFROM information_schema.columns \n\t\tWHERE table_schema = DATABASE() \n\t\tAND table_name = \x27issues\x27 \n\t\tAND column_name = \x27wisp_type\x27\n\t").toList

/-- The catalog query of migrations.go `migrateSpecIDColumn`. -/
def specIDQuery : List Char :=
  ("\n\t\tSELECT COUNT(*) \n\t\tFROM information_schema.columns \n\t\tWHERE table_schema = DATABASE() \n\t\tAND table_name = \x27issues\x27 \n\t\tAND column_name = \x27spec_id\x27\n\t").toList

/-- The DDL statement adding the `wisp_type` column. -/
def alterWispStmt : List Char :=
  ("ALTER TABLE issues ADD COLUMN wisp_type VARCHAR(32) DEFAULT \x27\x27").toList

/-- The DDL statement adding the `spec_id` column. -/
def alterSpecIDStmt : List Char :=
  ("ALTER TABLE issues ADD COLUMN spec_id VARCHAR(1024)").toList

/-- The DDL statement creating the `spec_id` index. -/
def createSpecIDIndexStmt : List Char :=
  ("CREATE INDEX idx_issues_spec_id ON issues(spec_id)").toList

/-- migrations.go `migrateWispTypeColumn`: query the catalog for the
column; if absent, add it, ignoring a "duplicate column" failure.
Returns the error (if any) and the statements executed. -/
def migrateWispTypeColumn (db : DB) : Option (List Char) × List (List Char) :=
  match db.queryCount wispTypeQuery with
  | Except.error e => (some (("checking wisp_type column: ").toList ++ e), [])
  | Except.ok count =>
    if count > 0 then (none, [])
    else
      match db.exec alterWispStmt with
      | some e =>
        if goContains (goToLower e) ("duplicate column".toList) then
          (none, [alterWispStmt])
        else
          (some (("adding wisp_type column: ").toList ++ e), [alterWispStmt])
      | none => (none, [alterWispStmt])

/-- migrations.go `migrateSpecIDColumn`: query the catalog for the
column; if absent, add it (ignoring "duplicate column") and then create
its index (ignoring "duplicate" / "already exists"). -/
def migrateSpecIDColumn (db : DB) : Option (List Char) × List (List Char) :=
  match db.queryCount specIDQuery with
  | Except.error e => (some (("checking spec_id column: ").toList ++ e), [])
  | Except.ok count =>
    if count > 0 then (none, [])
    else
      let alterRes := db.exec alterSpecIDStmt
      if alterRes.isSome ∧
          goContains (goToLower (alterRes.getD [])) ("duplicate column".toList) = false then
        (some (("adding spec_id column: ").toList ++ alterRes.getD []),
          [alterSpecIDStmt])
      else
        match db.exec createSpecIDIndexStmt with
        | some e =>
          if goContains (goToLower e) ("duplicate".toList) ||
              goContains (goToLower e) ("already exists".toList) then
            (none, [alterSpecIDStmt, createSpecIDIndexStmt])
          else
            (some (("creating spec_id index: ").toList ++ e),
              [alterSpecIDStmt, createSpecIDIndexStmt])
        | none => (none, [alterSpecIDStmt, createSpecIDIndexStmt])

/-- migrations.go `migrationsList`: the ordered, append-only migration
registry. -/
def migrationsList : List (List Char × (DB → Option (List Char) × List (List Char))) :=
  [(("wisp_type_column").toList, migrateWispTypeColumn),
   (("spec_id_column").toList, migrateSpecIDColumn)]

/-- Go `fmt` `%q` on the plain identifiers used as migration names. -/
def quoteName (s : List Char) : List Char :=
  ("\x22").toList ++ s ++ ("\x22").toList

/-- The loop of migrations.go `RunMigrations`: run each migration in
order, wrapping the first failure with the migration's quoted name. -/
def runMigrationsAux (db : DB) :
    List (List Char × (DB → Option (List Char) × List (List Char))) →
    Option (List Char) × List (List Char)
  | [] => (none, [])
  | (name, f) :: rest =>
    match f db with
    | (some e, t) =>
      (some (("mariadb migration ").toList ++ quoteName name ++
        (" failed: ").toList ++ e), t)
    | (none, t) =>
      let (r, t2) := runMigrationsAux db rest
      (r, t ++ t2)

/-- migrations.go `RunMigrations`. -/
def RunMigrations (db : DB) : Option (List Char) × List (List Char) :=
  runMigrationsAux db migrationsList

/-- The baseline-script loop of store.go `initSchemaOnDB`: execute every
non-empty, non-comment statement, aborting with an error that embeds the
truncated offending statement. -/
def runSchemaStmts (db : DB) : List (List Char) → Option (List Char) × List (List Char)
  | [] => (none, [])
  | s :: rest =>
    let stmt := trimSpace s
    if stmt.isEmpty then runSchemaStmts db rest
    else if isOnlyComments stmt then runSchemaStmts db rest
    else
      match db.exec stmt with
      | some e =>
        (some (("failed to create schema: ").toList ++ e ++
          ("\nStatement: ").toList ++ truncateForError stmt), [stmt])
      | none =>
        let (r, t) := runSchemaStmts db rest
        (r, stmt :: t)

/-- The default-configuration seed loop of store.go `initSchemaOnDB`:
same skipping as the baseline loop, but the failure wrap names the stage
only. -/
def runSeedStmts (db : DB) : List (List Char) → Option (List Char) × List (List Char)
  | [] => (none, [])
  | s :: rest =>
    let stmt := trimSpace s
    if stmt.isEmpty then runSeedStmts db rest
    else if isOnlyComments stmt then runSeedStmts db rest
    else
      match db.exec stmt with
      | some e =>
        (some (("failed to insert default config: ").toList ++ e), [stmt])
      | none =>
        let (r, t) := runSeedStmts db rest
        (r, stmt :: t)

/-- The index-migration list of store.go `initSchemaOnDB`. -/
def indexMigrations : List (List Char) :=
  [("CREATE INDEX idx_issues_issue_type ON issues(issue_type)").toList]

/-- The index-migration loop: "duplicate" / "already exists" answers are
treated as success. -/
def runIndexMigrations (db : DB) : List (List Char) → Option (List Char) × List (List Char)
  | [] => (none, [])
  | m :: rest =>
    match db.exec m with
    | some e =>
      if goContains (goToLower e) ("duplicate".toList) ||
          goContains (goToLower e) ("already exists".toList) then
        let (r, t) := runIndexMigrations db rest
        (r, m :: t)
      else
        (some (("failed to apply index migration: ").toList ++ e), [m])
    | none =>
      let (r, t) := runIndexMigrations db rest
      (r, m :: t)

/-- The legacy constraint-removal statement of store.go `initSchemaOnDB`. -/
def fkDropStmt : List Char :=
  ("ALTER TABLE dependencies DROP FOREIGN KEY fk_dep_depends_on").toList

/-- Whether a constraint-removal failure is one of the recognized
"constraint does not exist" answers. -/
def fkDropTolerated (e : List Char) : Bool :=
  goContains (goToLower e) ("can\x27t drop".toList) ||
  goContains (goToLower e) ("doesn\x27t exist".toList) ||
  goContains (goToLower e) ("check that it exists".toList) ||
  goContains (goToLower e) ("was not found".toList)

/-- store.go `initSchemaOnDB`: baseline script, seed script, index
migrations, constraint removal, the two views, then `RunMigrations`.
The view scripts (`readyIssuesView`, `blockedIssuesView`) and the two
script constants are defined in a file outside the provided sources, so
they are parameters here.  Returns the error (if any) and the statements
executed against the database. -/
def initSchemaOnDB (db : DB) (schema defaultConfig readyV blockedV : List Char) :
    Option (List Char) × List (List Char) :=
  match runSchemaStmts db (splitStatements schema) with
  | (some e, t) => (some e, t)
  | (none, t1) =>
    match runSeedStmts db (splitStatements defaultConfig) with
    | (some e, t) => (some e, t1 ++ t)
    | (none, t2) =>
      match runIndexMigrations db indexMigrations with
      | (some e, t) => (some e, t1 ++ t2 ++ t)
      | (none, t3) =>
        let fkRes := db.exec fkDropStmt
        if fkRes.isSome ∧ fkDropTolerated (fkRes.getD []) = false then
          (some (("failed to drop fk_dep_depends_on: ").toList ++ fkRes.getD []),
            t1 ++ t2 ++ t3 ++ [fkDropStmt])
        else
          let t4 := t1 ++ t2 ++ t3 ++ [fkDropStmt]
          match db.exec readyV with
          | some e =>
            (some (("failed to create ready_issues view: ").toList ++ e),
              t4 ++ [readyV])
          | none =>
            match db.exec blockedV with
            | some e =>
              (some (("failed to create blocked_issues view: ").toList ++ e),
                t4 ++ [readyV, blockedV])
            | none =>
              match RunMigrations db with
              | (some e, t) =>
                (some (("failed to run mariadb migrations: ").toList ++ e),
                  t4 ++ [readyV, blockedV] ++ t)
              | (none, t) => (none, t4 ++ [readyV, blockedV] ++ t)

/-- store.go `Config`. -/
structure Config where
  Host : List Char
  Port : Nat
  User : List Char
  Password : List Char
  Database : List Char
  ReadOnly : Bool
  deriving Repr, DecidableEq

/-- store.go `DefaultPort`. -/
def DefaultPort : Nat := 3306

/-- Oracle for the world outside the store: the value of the
`BEADS_MARIADB_PASSWORD` environment variable (empty when unset), the
behaviour of `sql.Open` per connection string, and the four script
constants (`schema`, `defaultConfig`, `readyIssuesView`,
`blockedIssuesView`) that live in a file outside the provided sources. -/
structure World where
  envPassword : List Char
  sqlOpen : List Char → Except (List Char) DB
  schemaScript : List Char
  defaultConfigScript : List Char
  readyIssuesView : List Char
  blockedIssuesView : List Char

/-- The default-filling block at the top of store.go `New`: because `New`
receives `*Config`, these writes mutate the caller's struct; the model
returns the struct as left by `New`. -/
def applyDefaults (w : World) (cfg : Config) : Config :=
  let cfg := if cfg.Database.isEmpty then { cfg with Database := ("beads").toList } else cfg
  let cfg := if cfg.Host.isEmpty then { cfg with Host := ("127.0.0.1").toList } else cfg
  let cfg := if cfg.Port == 0 then { cfg with Port := DefaultPort } else cfg
  let cfg := if cfg.User.isEmpty then { cfg with User := ("root").toList } else cfg
  if cfg.Password.isEmpty then { cfg with Password := w.envPassword } else cfg

/-- The DSN built by store.go `openServerConnection` for the primary
pooled connection. -/
def buildConnStr (cfg : Config) : List Char :=
  if cfg.Password.isEmpty then
    cfg.User ++ ("@tcp(").toList ++ cfg.Host ++ [':'] ++ (toString cfg.Port).toList ++
      (")/").toList ++ cfg.Database ++ ("?parseTime=true").toList
  else
    cfg.User ++ [':'] ++ cfg.Password ++ ("@tcp(").toList ++ cfg.Host ++ [':'] ++
      (toString cfg.Port).toList ++ (")/").toList ++ cfg.Database ++
      ("?parseTime=true").toList

/-- The DSN of the short-lived administrative connection (no database
selected). -/
def buildInitConnStr (cfg : Config) : List Char :=
  if cfg.Password.isEmpty then
    cfg.User ++ ("@tcp(").toList ++ cfg.Host ++ [':'] ++ (toString cfg.Port).toList ++
      ("/?parseTime=true").toList
  else
    cfg.User ++ [':'] ++ cfg.Password ++ ("@tcp(").toList ++ cfg.Host ++ [':'] ++
      (toString cfg.Port).toList ++ ("/?parseTime=true").toList

/-- The remediation hint appended when the administrative step hits
"connection refused". -/
def serverDownHint : List Char :=
  ("\n\nThe MariaDB server may not be running. Try:\n  sudo systemctl start mariadb    # On systemd systems\n  brew services start mariadb     # On macOS with Homebrew").toList

/-- store.go `openServerConnection`: open the pooled handle, open the
administrative handle, issue `CREATE DATABASE IF NOT EXISTS`, tolerate
"database exists" / error 1007, classify "connection refused" with the
remediation hint, and return the pooled handle with its DSN.  (The pool
bounds set via `SetMaxOpenConns` etc. have no further observable effect
in this model.) -/
def openServerConnection (w : World) (cfg : Config) :
    Except (List Char) (DB × List Char) :=
  let connStr := buildConnStr cfg
  match w.sqlOpen connStr with
  | Except.error e =>
    Except.error (("failed to open MariaDB server connection: ").toList ++ e)
  | Except.ok db =>
    match w.sqlOpen (buildInitConnStr cfg) with
    | Except.error e =>
      Except.error (("failed to open init connection: ").toList ++ e)
    | Except.ok initDB =>
      match initDB.exec (("CREATE DATABASE IF NOT EXISTS ").toList ++ cfg.Database) with
      | some e =>
        let errLower := goToLower e
        if goContains errLower ("database exists".toList) = false &&
            goContains errLower ("1007".toList) = false then
          if goContains errLower ("connection refused".toList) ||
              goContains errLower ("connect: connection refused".toList) then
            Except.error (("failed to connect to MariaDB server at ").toList ++
              cfg.Host ++ [':'] ++ (toString cfg.Port).toList ++ (": ").toList ++
              e ++ serverDownHint)
          else
            Except.error (("failed to create database: ").toList ++ e)
        else
          Except.ok (db, connStr)
      | none => Except.ok (db, connStr)

/-- store.go `New`: fill defaults in the caller's `Config`, open the
server connection, ping it, build the store and — unless the read-only
flag is set — run schema evolution.  Returns the result, the `Config` as
mutated in place, and the trace of schema statements executed. -/
def New (w : World) (cfg : Config) :
    Except (List Char) MariaDBStore × Config × List (List Char) :=
  let cfg := applyDefaults w cfg
  match openServerConnection w cfg with
  | Except.error e => (Except.error e, cfg, [])
  | Except.ok (db, connStr) =>
    match db.ping with
    | some e =>
      (Except.error (("failed to ping MariaDB database: ").toList ++ e), cfg, [])
    | none =>
      let store : MariaDBStore :=
        { db := some db, dbName := cfg.Database, connStr := connStr,
          closed := false, readOnly := cfg.ReadOnly }
      if cfg.ReadOnly then (Except.ok store, cfg, [])
      else
        match initSchemaOnDB db w.schemaScript w.defaultConfigScript
            w.readyIssuesView w.blockedIssuesView with
        | (some e, t) =>
          (Except.error (("failed to initialize schema: ").toList ++ e), cfg, t)
        | (none, t) => (Except.ok store, cfg, t)

/-- A pool oracle whose close reports `context.Canceled`, used to
exercise the close path at a concrete input. -/
def canceledCloseDB : DB :=
  { exec := fun _ => none, queryCount := fun _ => Except.ok 0,
    ping := none, connResult := Except.ok (), closeResult := some GoErr.canceled }

/-- A live store over `canceledCloseDB`. -/
def canceledCloseStore : MariaDBStore :=
  { db := some canceledCloseDB, dbName := ("beads").toList, connStr := [],
    closed := false, readOnly := false }

/-- A database oracle that fails exactly the seed statement
`INSERT INTO config VALUES (1)` with the error "boom". -/
def seedFailDB : DB :=
  { exec := fun stmt =>
      if stmt = ("INSERT INTO config VALUES (1)").toList then
        some (("boom").toList)
      else none,
    queryCount := fun _ => Except.ok 1,
    ping := none, connResult := Except.ok (), closeResult := none }

/-- A database oracle that fails every statement with the error "boom". -/
def schemaFailDB : DB :=
  { exec := fun _ => some (("boom").toList),
    queryCount := fun _ => Except.ok 1,
    ping := none, connResult := Except.ok (), closeResult := none }

/-- A database oracle on which everything succeeds. -/
def okDB : DB :=
  { exec := fun _ => none, queryCount := fun _ => Except.ok 1,
    ping := none, connResult := Except.ok (), closeResult := none }

/-- A world oracle over `okDB` with empty scripts and no environment
password. -/
def okWorld : World :=
  { envPassword := [], sqlOpen := fun _ => Except.ok okDB,
    schemaScript := [], defaultConfigScript := [],
    readyIssuesView := ("CREATE VIEW r AS SELECT 1").toList,
    blockedIssuesView := ("CREATE VIEW b AS SELECT 2").toList }

/-- An empty configuration with the read-only flag set. -/
def readOnlyCfg : Config :=
  { Host := [], Port := 0, User := [], Password := [], Database := [],
    ReadOnly := true }

/-! ### Generic lemmas about the string helpers -/

theorem startsWith_append_self : ∀ (b c : List Char), startsWith (b ++ c) b = true
  | [], c => by cases c <;> rfl
  | d :: ds, c => by
    simp only [List.cons_append, startsWith, beq_self_eq_true, Bool.true_and]
    exact startsWith_append_self ds c

theorem goContains_append_self (b c : List Char) : goContains (b ++ c) b = true := by
  cases b with
  | nil =>
    cases c with
    | nil => rfl
    | cons x rest => simp [goContains, startsWith]
  | cons y ys =>
    simp only [List.cons_append, goContains, List.append_eq]
    have h := startsWith_append_self (y :: ys) c
    simp only [List.cons_append] at h
    rw [h]
    rfl

theorem goContains_append_of_goContains (a : List Char) {s sub : List Char}
    (h : goContains s sub = true) : goContains (a ++ s) sub = true := by
  induction a with
  | nil => simpa using h
  | cons x xs ih =>
    simp only [List.cons_append, goContains, List.append_eq]
    rw [ih]
    exact Bool.or_true _

theorem goContains_middle (a b c : List Char) : goContains (a ++ b ++ c) b = true := by
  rw [List.append_assoc]
  exact goContains_append_of_goContains a (goContains_append_self b c)

theorem goContains_self_append (a b : List Char) : goContains (a ++ b) b = true := by
  have h := goContains_append_self b ([] : List Char)
  rw [List.append_nil] at h
  exact goContains_append_of_goContains a h

theorem dropWhile_dropWhile (p : Char → Bool) :
    ∀ l : List Char, (l.dropWhile p).dropWhile p = l.dropWhile p
  | [] => rfl
  | c :: rest => by
    by_cases h : p c
    · simp only [List.dropWhile_cons, h, if_true]
      exact dropWhile_dropWhile p rest
    · simp [List.dropWhile_cons, h]

theorem dropWhile_eq_append (p : Char → Bool) :
    ∀ l : List Char, ∃ t, l = t ++ l.dropWhile p
  | [] => ⟨[], rfl⟩
  | c :: rest => by
    by_cases h : p c
    · obtain ⟨t, ht⟩ := dropWhile_eq_append p rest
      refine ⟨c :: t, ?_⟩
      simp only [List.dropWhile_cons, h, if_true, List.cons_append]
      exact congrArg (c :: ·) ht
    · exact ⟨[], by simp [List.dropWhile_cons, h]⟩

theorem length_dropWhile_le (p : Char → Bool) :
    ∀ l : List Char, (l.dropWhile p).length ≤ l.length
  | [] => le_refl _
  | c :: rest => by
    by_cases h : p c
    · simp only [List.dropWhile_cons, h, if_true]
      exact Nat.le_succ_of_le (length_dropWhile_le p rest)
    · simp [List.dropWhile_cons, h]

theorem dropWhile_eq_self_left (p : Char → Bool) (l₂ t : List Char)
    (h : (l₂ ++ t).dropWhile p = l₂ ++ t) : l₂.dropWhile p = l₂ := by
  cases l₂ with
  | nil => rfl
  | cons c rest =>
    have hc : p c = false := by
      by_contra hc
      rw [Bool.not_eq_false] at hc
      rw [List.cons_append, List.dropWhile_cons, if_pos hc] at h
      have hlen := congrArg List.length h
      have hle := length_dropWhile_le p (rest ++ t)
      simp only [List.length_cons] at hlen
      omega
    simp [List.dropWhile_cons, hc]

theorem trimSpace_trimSpace (s : List Char) : trimSpace (trimSpace s) = trimSpace s := by
  unfold trimSpace
  have hAdrop : (s.dropWhile isSpaceChar).dropWhile isSpaceChar = s.dropWhile isSpaceChar :=
    dropWhile_dropWhile isSpaceChar s
  obtain ⟨t, ht⟩ := dropWhile_eq_append isSpaceChar (s.dropWhile isSpaceChar).reverse
  have hA : s.dropWhile isSpaceChar =
      ((s.dropWhile isSpaceChar).reverse.dropWhile isSpaceChar).reverse ++ t.reverse := by
    have := congrArg List.reverse ht
    simpa [List.reverse_append] using this
  have h1 : (((s.dropWhile isSpaceChar).reverse.dropWhile isSpaceChar).reverse).dropWhile
      isSpaceChar = ((s.dropWhile isSpaceChar).reverse.dropWhile isSpaceChar).reverse := by
    apply dropWhile_eq_self_left isSpaceChar _ t.reverse
    rw [← hA]
    exact hAdrop
  rw [h1, List.reverse_reverse, dropWhile_dropWhile]

/-! ### Invariants of the statement splitter -/

theorem splitStep_statements_inv (st : SplitState) (prev : Option Char) (c : Char)
    (h : ∀ x ∈ st.statements, x ≠ [] ∧ trimSpace x = x) :
    ∀ x ∈ (splitStep st prev c).statements, x ≠ [] ∧ trimSpace x = x := by
  intro x hx
  unfold splitStep at hx
  split_ifs at hx with h1 h2 h3 h4
  · exact h x hx
  · exact h x hx
  · exact h x hx
  · dsimp only at hx
    split at hx
    · exact h x hx
    · rename_i hemp
      rw [List.mem_append] at hx
      rcases hx with hx | hx
      · exact h x hx
      · rw [List.mem_singleton] at hx
        subst hx
        refine ⟨?_, trimSpace_trimSpace st.current⟩
        intro he
        rw [he] at hemp
        exact hemp rfl
  · exact h x hx

theorem splitLoop_statements_inv :
    ∀ (cs : List Char) (st : SplitState) (prev : Option Char),
      (∀ x ∈ st.statements, x ≠ [] ∧ trimSpace x = x) →
      ∀ x ∈ (splitLoop st prev cs).statements, x ≠ [] ∧ trimSpace x = x
  | [], _, _, h => h
  | c :: rest, st, prev, h =>
    splitLoop_statements_inv rest _ (some c) (splitStep_statements_inv st prev c h)

theorem getLast_append_single (a : List Char) (l : List (List Char)) :
    (l ++ [a]).getLast? = some a := by
  rw [List.getLast?_append_cons]
  rfl

/-! ### The claims about the statement splitter and error classification -/

/-- Claim C2 counterexample: the message "bad connection" contains the
substring "bad connection" (case-insensitively) but `isRetryableError`
classifies it as permanent, because the code matches the full driver
string "driver: bad connection". -/
theorem C2_counterexample :
    goContains (goToLower (("bad connection").toList)) (("bad connection").toList) = true ∧
    isRetryableError (some (("bad connection").toList)) = false := by
  exact ⟨by decide, by decide⟩

/-- Claim C2 (amended): `isRetryableError` returns true exactly when the
lowercased message contains "driver: bad connection", "invalid
connection", "broken pipe" or "connection reset" (so in particular any
message containing "connection refused" and none of those four is
permanent), and a nil error is not retryable. -/
theorem C2_classification (msg : List Char) :
    isRetryableError (some msg) =
      (goContains (goToLower msg) (("driver: bad connection").toList) ||
       goContains (goToLower msg) (("invalid connection").toList) ||
       goContains (goToLower msg) (("broken pipe").toList) ||
       goContains (goToLower msg) (("connection reset").toList)) ∧
    isRetryableError none = false := by
  constructor
  · unfold isRetryableError
    dsimp only
    split_ifs with h1 h2 h3 h4 <;> simp_all
  · rfl

/-- Claim C3: while the scanner is inside a string literal, a semicolon
is never treated as a statement separator — it is copied into the
current statement and the emitted statement list is unchanged — and the
example script `SELECT 'a;b'; SELECT 2` splits into exactly
`SELECT 'a;b'` and `SELECT 2`. -/
theorem C3_no_split_inside_literal :
    (∀ (st : SplitState) (prev : Option Char), st.inString = true →
      (splitStep st prev ';').statements = st.statements ∧
      (splitStep st prev ';').current = st.current ++ [';']) ∧
    splitStatements (("SELECT \x27a;b\x27; SELECT 2").toList) =
      [("SELECT \x27a;b\x27").toList, ("SELECT 2").toList] := by
  constructor
  · intro st prev h
    unfold splitStep
    rw [h]
    simp only [if_true]
    split_ifs <;> exact ⟨rfl, rfl⟩
  · decide

/-- Claim C3 witness: the general part of `C3_no_split_inside_literal`
applied to the scanner state reached inside the literal of the example. -/
theorem C3_witness :
    (splitStep ⟨[], ("SELECT \x27a").toList, true, '\x27'⟩ (some 'a') ';').statements = [] ∧
    (splitStep ⟨[], ("SELECT \x27a").toList, true, '\x27'⟩ (some 'a') ';').current =
      ("SELECT \x27a").toList ++ [';'] :=
  C3_no_split_inside_literal.1 ⟨[], ("SELECT \x27a").toList, true, '\x27'⟩ (some 'a') rfl

/-- Claim C4: every statement returned by `splitStatements` is non-empty
and trimmed (a fixed point of `trimSpace`), and when the scan leaves
trailing content with no terminating semicolon, that trimmed trailing
content is the last element of the result. -/
theorem C4_split_trimmed_final (script : List Char) :
    (∀ stmt ∈ splitStatements script, stmt ≠ [] ∧ trimSpace stmt = stmt) ∧
    (trimSpace (splitLoop splitInit none script).current ≠ [] →
      (splitStatements script).getLast? =
        some (trimSpace (splitLoop splitInit none script).current)) := by
  have hbase : ∀ x ∈ (splitLoop splitInit none script).statements,
      x ≠ [] ∧ trimSpace x = x :=
    splitLoop_statements_inv script splitInit none (by intro x hx; cases hx)
  constructor
  · intro stmt hm
    unfold splitStatements at hm
    dsimp only at hm
    split_ifs at hm with h1
    · exact hbase stmt hm
    · rw [List.mem_append] at hm
      rcases hm with hm | hm
      · exact hbase stmt hm
      · rw [List.mem_singleton] at hm
        subst hm
        refine ⟨?_, trimSpace_trimSpace _⟩
        intro hemp
        rw [hemp] at h1
        exact h1 rfl
  · intro h
    unfold splitStatements
    dsimp only
    have h1 : (trimSpace (splitLoop splitInit none script).current).isEmpty = false := by
      cases hc : trimSpace (splitLoop splitInit none script).current with
      | nil => exact absurd hc h
      | cons a l => rfl
    rw [h1]
    simp only [Bool.false_eq_true, if_false]
    exact getLast_append_single _ _

/-- Claim C4 witness: `C4_split_trimmed_final` applied to a script whose
final statement has no trailing semicolon. -/
theorem C4_witness :
    trimSpace (splitLoop splitInit none (("SELECT 1; SELECT 2").toList)).current ≠ [] ∧
    (splitStatements (("SELECT 1; SELECT 2").toList)).getLast? =
      some (trimSpace (splitLoop splitInit none (("SELECT 1; SELECT 2").toList)).current) :=
  ⟨by decide, (C4_split_trimmed_final (("SELECT 1; SELECT 2").toList)).2 (by decide)⟩

/-! ### The retry wrapper -/

theorem retryLoop_count_ge (op : Nat → Option (List Char)) :
    ∀ fuel k, k + 1 ≤ (retryLoop op fuel k).2
  | 0, k => by
    unfold retryLoop
    cases hop : op k with
    | none => exact le_refl _
    | some e =>
      dsimp only
      by_cases hr : isRetryableError (some e) = true
      · rw [if_pos hr]
      · rw [if_neg hr]
  | f + 1, k => by
    unfold retryLoop
    cases hop : op k with
    | none => exact le_refl _
    | some e =>
      dsimp only
      by_cases hr : isRetryableError (some e) = true
      · rw [if_pos hr]
        have ih := retryLoop_count_ge op f (k + 1)
        show k + 1 ≤ (retryLoop op f (k + 1)).2
        omega
      · rw [if_neg hr]

theorem retryLoop_count_le (op : Nat → Option (List Char)) :
    ∀ fuel k, (retryLoop op fuel k).2 ≤ k + fuel + 1
  | 0, k => by
    unfold retryLoop
    cases hop : op k with
    | none =>
      show k + 1 ≤ k + 0 + 1
      omega
    | some e =>
      dsimp only
      by_cases hr : isRetryableError (some e) = true
      · rw [if_pos hr]
      · rw [if_neg hr]
  | f + 1, k => by
    unfold retryLoop
    cases hop : op k with
    | none =>
      show k + 1 ≤ k + (f + 1) + 1
      omega
    | some e =>
      dsimp only
      by_cases hr : isRetryableError (some e) = true
      · rw [if_pos hr]
        have ih := retryLoop_count_le op f (k + 1)
        show (retryLoop op f (k + 1)).2 ≤ k + (f + 1) + 1
        omega
      · rw [if_neg hr]
        show k + 1 ≤ k + (f + 1) + 1
        omega

/-- Claim C5: under `withRetry`, a first-call error classified permanent
is returned after exactly one invocation with no retry; a first-call
error classified retryable leads to at least a second invocation
whenever the backoff ceiling (modelled as remaining retry budget) is not
already exhausted; and the number of invocations never exceeds the
ceiling budget plus one. -/
theorem C5_retry_behavior (op : Nat → Option (List Char)) (fuel : Nat) (e : List Char) :
    (op 0 = some e → isRetryableError (some e) = false →
      withRetry op fuel = (some e, 1)) ∧
    (op 0 = some e → isRetryableError (some e) = true → 1 ≤ fuel →
      2 ≤ (withRetry op fuel).2) ∧
    (withRetry op fuel).2 ≤ fuel + 1 := by
  refine ⟨?_, ?_, ?_⟩
  · intro h1 h2
    unfold withRetry retryLoop
    rw [h1]
    dsimp only
    rw [if_neg (by rw [h2]; exact Bool.false_ne_true)]
  · intro h1 h2 h3
    unfold withRetry retryLoop
    rw [h1]
    dsimp only
    rw [if_pos h2]
    cases fuel with
    | zero => omega
    | succ f => exact retryLoop_count_ge op f 1
  · have h := retryLoop_count_le op fuel 0
    unfold withRetry
    omega

/-- Claim C5 witness: a "connection refused" failure is returned after a
single invocation; a "broken pipe" failure is invoked at least twice. -/
theorem C5_witness :
    withRetry (fun _ => some (("connection refused").toList)) 5 =
      (some (("connection refused").toList), 1) ∧
    2 ≤ (withRetry (fun _ => some (("broken pipe").toList)) 5).2 :=
  ⟨(C5_retry_behavior (fun _ => some (("connection refused").toList)) 5
      (("connection refused").toList)).1 rfl (by decide),
   ((C5_retry_behavior (fun _ => some (("broken pipe").toList)) 5
      (("broken pipe").toList)).2).1 rfl (by decide) (by decide)⟩

/-! ### Store lifecycle -/

/-- Claim C7: `Close` is idempotent — a second call, after any first
call, returns no error (the pool pointer is already cleared, so the
second call has nothing to close). -/
theorem C7_close_idempotent (s : MariaDBStore) :
    (MariaDBStore.Close (MariaDBStore.Close s).1).2 = none := by
  cases h : s.db <;> simp [MariaDBStore.Close, h]

/-- Claim C10: `Close` always sets the closed flag and clears the pool
pointer; a `context.Canceled` result from closing the pool is discarded
and `Close` returns nil; any error `Close` does return is a
non-`Canceled` error produced by closing the pool. -/
theorem C10_close_filters_canceled (s : MariaDBStore) :
    (MariaDBStore.Close s).1.closed = true ∧
    (MariaDBStore.Close s).1.db = none ∧
    (∀ d, s.db = some d → d.closeResult = some GoErr.canceled →
      (MariaDBStore.Close s).2 = none) ∧
    (∀ e, (MariaDBStore.Close s).2 = some e →
      e ≠ GoErr.canceled ∧ ∃ d, s.db = some d ∧ d.closeResult = some e) := by
  refine ⟨?_, ?_, ?_, ?_⟩
  · cases h : s.db <;> simp [MariaDBStore.Close, h]
  · cases h : s.db <;> simp [MariaDBStore.Close, h]
  · intro d hd hc
    simp [MariaDBStore.Close, hd, hc]
  · intro e he
    cases hd : s.db with
    | none => simp [MariaDBStore.Close, hd] at he
    | some d =>
      cases hc : d.closeResult with
      | none => simp [MariaDBStore.Close, hd, hc] at he
      | some cerr =>
        by_cases hcan : cerr = GoErr.canceled
        · simp [MariaDBStore.Close, hd, hc, hcan] at he
        · simp only [MariaDBStore.Close, hd, hc, if_neg hcan] at he
          rw [Option.some_inj] at he
          subst he
          exact ⟨hcan, d, rfl, hc⟩

/-- Claim C10 witness: closing `canceledCloseStore`, whose pool close
reports `context.Canceled`, returns nil. -/
theorem C10_witness : (MariaDBStore.Close canceledCloseStore).2 = none :=
  (C10_close_filters_canceled canceledCloseStore).2.2.1 canceledCloseDB rfl rfl

/-- Claim C1: after `Close`, the store does not reject further use with
a well-defined "closed" error — `UnderlyingConn` dereferences the nil
pool pointer, a run-time panic, and `UnderlyingDB` hands out a nil pool
(while the closed flag is observable via `IsClosed`). -/
theorem C1_use_after_close_panics (s : MariaDBStore) :
    MariaDBStore.UnderlyingConn (MariaDBStore.Close s).1 = CallOutcome.nilPanic ∧
    MariaDBStore.UnderlyingDB (MariaDBStore.Close s).1 = none ∧
    MariaDBStore.IsClosed (MariaDBStore.Close s).1 = true := by
  refine ⟨?_, ?_, ?_⟩ <;> cases h : s.db <;>
    simp [MariaDBStore.Close, MariaDBStore.UnderlyingConn, MariaDBStore.UnderlyingDB,
      MariaDBStore.IsClosed, h]

/-! ### Schema evolution error wrapping -/

theorem runSchemaStmts_err (db : DB) :
    ∀ stmts e, (runSchemaStmts db stmts).1 = some e →
      ∃ stmt err, db.exec stmt = some err ∧ goContains e (truncateForError stmt) = true
  | [], e, h => by simp [runSchemaStmts] at h
  | s :: rest, e, h => by
    unfold runSchemaStmts at h
    dsimp only at h
    split_ifs at h with h1 h2
    · exact runSchemaStmts_err db rest e h
    · exact runSchemaStmts_err db rest e h
    · cases hexec : db.exec (trimSpace s) with
      | some err =>
        rw [hexec] at h
        dsimp only at h
        rw [Option.some_inj] at h
        subst h
        exact ⟨trimSpace s, err, hexec, goContains_self_append _ _⟩
      | none =>
        rw [hexec] at h
        dsimp only at h
        cases hres : runSchemaStmts db rest with
        | mk r t =>
          rw [hres] at h
          dsimp only at h
          exact runSchemaStmts_err db rest e (by rw [hres]; exact h)

theorem runMigrations_err_names (db : DB) :
    ∀ e, (RunMigrations db).1 = some e →
      goContains e (("wisp_type_column").toList) = true ∨
      goContains e (("spec_id_column").toList) = true := by
  intro e h
  simp only [RunMigrations, migrationsList, runMigrationsAux] at h
  cases h1 : migrateWispTypeColumn db with
  | mk r1 t1 =>
    rw [h1] at h
    cases r1 with
    | some e1 =>
      dsimp only at h
      rw [Option.some_inj] at h
      subst h
      left
      have hmid := goContains_middle
        ((("mariadb migration ").toList) ++ (("\x22").toList))
        (("wisp_type_column").toList)
        ((("\x22").toList) ++ ((" failed: ").toList ++ e1))
      simp only [quoteName, List.append_assoc]
      simp only [List.append_assoc] at hmid
      exact hmid
    | none =>
      dsimp only at h
      cases h2 : migrateSpecIDColumn db with
      | mk r2 t2 =>
        rw [h2] at h
        cases r2 with
        | some e2 =>
          dsimp only at h
          rw [Option.some_inj] at h
          subst h
          right
          have hmid := goContains_middle
            ((("mariadb migration ").toList) ++ (("\x22").toList))
            (("spec_id_column").toList)
            ((("\x22").toList) ++ ((" failed: ").toList ++ e2))
          simp only [quoteName, List.append_assoc]
          simp only [List.append_assoc] at hmid
          exact hmid
        | none =>
          dsimp only at h
          exact absurd h (by simp)

/-- Claim C6 counterexample: a schema-evolution run whose
default-configuration seed statement fails produces the error
"failed to insert default config: boom", which contains neither the
offending (truncated) statement nor the name of any registered
migration. -/
theorem C6_counterexample :
    (initSchemaOnDB seedFailDB (("CREATE TABLE t (x INT);").toList)
        (("INSERT INTO config VALUES (1);").toList)
        (("CREATE VIEW r AS SELECT 1").toList)
        (("CREATE VIEW b AS SELECT 2").toList)).1 =
      some (("failed to insert default config: boom").toList) ∧
    goContains (("failed to insert default config: boom").toList)
      (truncateForError (("INSERT INTO config VALUES (1)").toList)) = false ∧
    goContains (("failed to insert default config: boom").toList)
      (("wisp_type_column").toList) = false ∧
    goContains (("failed to insert default config: boom").toList)
      (("spec_id_column").toList) = false := by
  exact ⟨by decide, by decide, by decide, by decide⟩

/-- Claim C6 (amended): a baseline-script failure is reported with an
error that contains the offending statement, truncated; a failure of a
named migration is reported with an error that contains the migration's
name.  (Failures of the seed, index-migration, constraint-removal and
view-creation stages are wrapped only with a fixed stage description.) -/
theorem C6_amended (db : DB) :
    (∀ stmts e, (runSchemaStmts db stmts).1 = some e →
      ∃ stmt err, db.exec stmt = some err ∧
        goContains e (truncateForError stmt) = true) ∧
    (∀ e, (RunMigrations db).1 = some e →
      goContains e (("wisp_type_column").toList) = true ∨
      goContains e (("spec_id_column").toList) = true) :=
  ⟨runSchemaStmts_err db, runMigrations_err_names db⟩

/-- Claim C6 witness: `C6_amended` applied to a database that fails the
baseline statement `CREATE TABLE t (x INT)` with "boom". -/
theorem C6_witness :
    ∃ stmt err, schemaFailDB.exec stmt = some err ∧
      goContains
        (("failed to create schema: boom\nStatement: CREATE TABLE t (x INT)").toList)
        (truncateForError stmt) = true :=
  (C6_amended schemaFailDB).1 [("CREATE TABLE t (x INT)").toList]
    (("failed to create schema: boom\nStatement: CREATE TABLE t (x INT)").toList)
    (by decide)

/-! ### Store opening -/

theorem applyDefaults_eq (w : World) (cfg : Config) :
    applyDefaults w cfg =
      { Host := if cfg.Host.isEmpty then ("127.0.0.1").toList else cfg.Host,
        Port := if cfg.Port == 0 then DefaultPort else cfg.Port,
        User := if cfg.User.isEmpty then ("root").toList else cfg.User,
        Password := if cfg.Password.isEmpty then w.envPassword else cfg.Password,
        Database := if cfg.Database.isEmpty then ("beads").toList else cfg.Database,
        ReadOnly := cfg.ReadOnly } := by
  simp only [applyDefaults]
  split_ifs <;> rfl

theorem applyDefaults_readOnly (w : World) (cfg : Config) :
    (applyDefaults w cfg).ReadOnly = cfg.ReadOnly := by
  rw [applyDefaults_eq]

/-- Claim C8: with the read-only flag set, `New` executes no schema
statement (the schema-evolution trace is empty), its result is exactly
that of the connect-and-ping phase, and the connection-establishment
phase does not depend on the read-only flag at all. -/
theorem C8_readonly_skips_schema (w : World) (cfg : Config) (h : cfg.ReadOnly = true) :
    (New w cfg).2.2 = [] ∧
    (New w cfg).1 =
      (match openServerConnection w (applyDefaults w cfg) with
       | Except.error e => Except.error e
       | Except.ok (db, connStr) =>
         match db.ping with
         | some e => Except.error ((("failed to ping MariaDB database: ").toList ++ e))
         | none => Except.ok
             { db := some db, dbName := (applyDefaults w cfg).Database,
               connStr := connStr, closed := false, readOnly := true }) ∧
    (∀ b, openServerConnection w { cfg with ReadOnly := b } =
      openServerConnection w cfg) := by
  have hro : (applyDefaults w cfg).ReadOnly = true := by
    rw [applyDefaults_readOnly]
    exact h
  refine ⟨?_, ?_, fun b => rfl⟩
  · unfold New
    dsimp only
    split
    · rfl
    · split
      · rfl
      · rw [if_pos hro]
  · unfold New
    dsimp only
    split
    · rfl
    · split
      · rfl
      · rw [if_pos hro]
        dsimp only
        rw [hro]

/-- Claim C8 witness: `C8_readonly_skips_schema` at a concrete world and
a read-only configuration. -/
theorem C8_witness : (New okWorld readOnlyCfg).2.2 = [] :=
  (C8_readonly_skips_schema okWorld readOnlyCfg rfl).1

/-- Claim C9: `New` writes the defaults into the caller's `Config`
struct — empty `Database`, `Host`, `Port`, `User` become "beads",
"127.0.0.1", 3306, "root", and an empty `Password` becomes the
`BEADS_MARIADB_PASSWORD` environment value — and the struct `New`
leaves behind equals `applyDefaults` in every branch, including every
error return. -/
theorem C9_config_mutation (w : World) (cfg : Config) :
    (New w cfg).2.1 = applyDefaults w cfg ∧
    (applyDefaults w cfg).Database =
      (if cfg.Database.isEmpty then ("beads").toList else cfg.Database) ∧
    (applyDefaults w cfg).Host =
      (if cfg.Host.isEmpty then ("127.0.0.1").toList else cfg.Host) ∧
    (applyDefaults w cfg).Port = (if cfg.Port == 0 then DefaultPort else cfg.Port) ∧
    (applyDefaults w cfg).User =
      (if cfg.User.isEmpty then ("root").toList else cfg.User) ∧
    (applyDefaults w cfg).Password =
      (if cfg.Password.isEmpty then w.envPassword else cfg.Password) ∧
    (applyDefaults w cfg).ReadOnly = cfg.ReadOnly := by
  refine ⟨?_, ?_, ?_, ?_, ?_, ?_, applyDefaults_readOnly w cfg⟩
  · unfold New
    dsimp only
    split
    · rfl
    · split
      · rfl
      · split
        · rfl
        · split <;> rfl
  · rw [applyDefaults_eq]
  · rw [applyDefaults_eq]
  · rw [applyDefaults_eq]
  · rw [applyDefaults_eq]
  · rw [applyDefaults_eq]

end Maude
